/-
Verification of the `kunai` utility module (`src/kunai/src/util.rs`):
a shallow embedding in Lean 4 of the system-primitives layer
(monotonic time, sysconf queries, page-shift derivation, kernel
randomness, process signaling, IP classification, LSM probing and
content hashing), together with proofs of its specified properties.

Conventions of the embedding:
* machine integers are `Nat`/`Int` with explicit `% 2^w` at the points
  where the Rust code wraps or casts;
* syscall results (return codes, `errno`, file contents, the bytes the
  kernel wrote) are passed as explicit parameters, so each Rust function
  becomes a pure Lean function of its environment;
* fallible functions return `Except`;
* the `while` loop of `page_shift` is embedded fuel-indexed: `none`
  means the loop did not terminate within `fuel` iterations.
-/
import Mathlib

namespace Kunai

/-! ## Machine-integer casts

Rust's `as` casts and wrapping arithmetic, made explicit. -/

/-- `x as u64` for a signed 64-bit quantity `x`: two's complement
reinterpretation, i.e. reduction mod `2^64` into `[0, 2^64)`. -/
def asU64 (x : Int) : Nat := (x % (2 : Int) ^ 64).toNat

/-- `x as usize` for an `isize`/`ssize_t` value (64-bit host). -/
def asUsize (x : Int) : Nat := asU64 x

/-- Wrapping interpretation of an integer as an `i64`
(two's complement, result in `[-2^63, 2^63)`). -/
def asI64 (x : Int) : Int := (x + 2 ^ 63) % 2 ^ 64 - 2 ^ 63

/-! ## TimeSource: `ktime_get_ns`

```rust
pub fn ktime_get_ns() -> Result<u64, io::Error> {
    let mut ts: timespec = unsafe { std::mem::zeroed() };
    let result = unsafe { clock_gettime(CLOCK_MONOTONIC, &mut ts) };
    if result == 0 {
        Ok(ts.tv_sec as u64 * 1_000_000_000 + ts.tv_nsec as u64)
    } else {
        Err(io::Error::last_os_error())
    }
}
```

The clock syscall's outcome is the parameter triple
`(result, tv_sec, tv_nsec)`; `errno` stands for `last_os_error`.
The two `as u64` casts and the `u64` multiply/add wrap mod `2^64`
(release semantics). -/

def ktime_get_ns (result : Int) (tv_sec tv_nsec : Int) (errno : Nat) :
    Except Nat Nat :=
  if result = 0 then
    Except.ok ((asU64 tv_sec * 1000000000 % 2 ^ 64 + asU64 tv_nsec) % 2 ^ 64)
  else
    Except.error errno

/-! ## SysConfig: `page_shift`

```rust
pub fn page_shift() -> Result<u64, io::Error> {
    let page_size = page_size()?;
    let mut page_shift = 0u64;
    while (1 << page_shift) < page_size {
        page_shift += 1
    }
    Ok(page_shift)
}
```

`page_size` is an `i64`; the literal `1` is forced to `i64` by the
comparison, so the shift is an `i64` shift whose amount is masked
mod 64 (release semantics), embedded by `shl1_i64`. -/

/-- `(1 : i64) << n` with Rust release semantics: the shift amount is
masked mod 64 and the result is reinterpreted as `i64`. -/
def shl1_i64 (n : Nat) : Int := asI64 (2 ^ (n % 64))

/-- Fuel-indexed embedding of the `while (1 << page_shift) < page_size`
loop, starting from shift value `n`. `none` means the loop has not
terminated within `fuel` iterations. -/
def pageShiftLoop (fuel : Nat) (page_size : Int) (n : Nat) : Option Nat :=
  match fuel with
  | 0 => none
  | fuel + 1 =>
    if shl1_i64 n < page_size then pageShiftLoop fuel page_size (n + 1)
    else some n

/-- `page_shift`, given the result of the `page_size()` call: propagates
the error unchanged, otherwise runs the loop from `0`. -/
def page_shift (page_size_res : Except Nat Int) : Except Nat (Option Nat) :=
  match page_size_res with
  | Except.error e => Except.error e
  | Except.ok ps => Except.ok (pageShiftLoop 64 ps 0)

/-! ## RandomSource: `getrandom`

```rust
pub fn getrandom<T: Sized>() -> Result<T, RandError> {
    let mut t = MaybeUninit::<T>::uninit();
    let buflen = size_of::<T>();
    let rc = unsafe { libc::getrandom(t.as_mut_ptr() as *mut _, buflen, 0) };
    if rc == -1 {
        return Err(RandError::CallFailure);
    }
    if rc as usize != buflen {
        return Err(RandError::PartiallyRandomized);
    }
    Ok(unsafe { t.assume_init() })
}
```

The value of type `T` is modelled as its buffer of `size_of::<T>()`
bytes, each `Option Nat`: `none` is an uninitialized byte. The kernel
call's outcome is the pair `(rc, filled)` together with the random
bytes `rand`; the kernel initializes the first `filled` bytes. -/

inductive RandError where
  | CallFailure
  | PartiallyRandomized
  deriving DecidableEq, Repr

/-- The buffer as it stands after the `libc::getrandom` call: the
kernel wrote the first `filled` of `buflen` bytes. -/
def kernelBuf (buflen filled : Nat) (rand : Nat → Nat) : List (Option Nat) :=
  (List.range buflen).map fun i => if i < filled then some (rand i) else none

/-- `getrandom::<T>` given the kernel call's return code `rc` and the
buffer `buf` as the kernel left it. -/
def getrandom (buflen : Nat) (rc : Int) (buf : List (Option Nat)) :
    Except RandError (List (Option Nat)) :=
  if rc = -1 then Except.error RandError.CallFailure
  else if asUsize rc ≠ buflen then Except.error RandError.PartiallyRandomized
  else Except.ok buf

/-! ## ProcessControl: `kill`

```rust
pub fn kill(pid: i32, sig: i32) -> Result<(), io::Error> {
    if unsafe { libc::kill(pid, sig) } == -1 {
        return Err(io::Error::last_os_error());
    }
    Ok(())
}
```

The underlying `libc::kill` return code is the parameter `rc`; `errno`
stands for `last_os_error`. The function always returns (it never
aborts the process): in the embedding it is a total function. -/

def kill (rc : Int) (errno : Nat) : Except Nat Unit :=
  if rc = -1 then Except.error errno else Except.ok ()

/-! ## SecurityModuleProbe: `is_bpf_lsm_enabled`

```rust
pub fn is_bpf_lsm_enabled() -> Result<bool, io::Error> {
    Ok(fs::read_to_string("/sys/kernel/security/lsm")?
        .split(',')
        .any(|s| s == "bpf"))
}
```

The outcome of reading `/sys/kernel/security/lsm` is the parameter:
`Except.error e` when the file cannot be read (the `?` propagates the
error), `Except.ok s` its content otherwise. Rust's `str::split(',')`
is embedded over the character list by `rustSplit`: it keeps empty
tokens and yields `[""]` on the empty string, exactly as Rust's
`split` does. -/

/-- Rust's `str::split(sep)` with a one-character separator, over the
character list: splits at every occurrence of `sep`, keeping empty
tokens; the empty input yields one empty token. -/
def rustSplit (sep : Char) : List Char → List (List Char)
  | [] => [[]]
  | c :: rest =>
    match rustSplit sep rest with
    | t :: ts => if c = sep then [] :: t :: ts else (c :: t) :: ts
    | [] => if c = sep then [[], []] else [[c]]

def is_bpf_lsm_enabled (read_res : Except Nat String) : Except Nat Bool :=
  match read_res with
  | Except.error e => Except.error e
  | Except.ok s =>
    Except.ok ((rustSplit ',' s.data).any fun tok => tok == "bpf".data)

/-! ## HashEngine

```rust
pub fn sha256_data<T: AsRef<[u8]>>(data: T) -> String {
    let mut h = Sha256::new();
    h.update(data.as_ref());
    hex::encode(h.finalize())
}
```
and likewise `md5_data` / `sha1_data` / `sha512_data`. The digest
crates implement the standard one-shot constructions (RFC 1321 for
MD5, FIPS 180-4 for SHA-1/256/512); those algorithms are embedded
here in full. Bytes are `Nat` reduced mod 256 (`u8`); 32- and 64-bit
words are `Nat` with explicit `% 2^32` / `% 2^64`. -/

/-- `2^32`, the modulus of 32-bit words. -/
def M32 : Nat := 4294967296

/-- `2^64`, the modulus of 64-bit words. -/
def M64 : Nat := 18446744073709551616

/-- Bitwise complement on 32-bit words. -/
def not32 (x : Nat) : Nat := x ^^^ (M32 - 1)

/-- Bitwise complement on 64-bit words. -/
def not64 (x : Nat) : Nat := x ^^^ (M64 - 1)

/-- Left rotation of a 32-bit word by `n < 32` bits. -/
def rotl32 (x n : Nat) : Nat := (x % 2 ^ (32 - n)) * 2 ^ n + x / 2 ^ (32 - n)

/-- Right rotation of a 32-bit word by `n < 32` bits. -/
def rotr32 (x n : Nat) : Nat := (x % 2 ^ n) * 2 ^ (32 - n) + x / 2 ^ n

/-- Right rotation of a 64-bit word by `n < 64` bits. -/
def rotr64 (x n : Nat) : Nat := (x % 2 ^ n) * 2 ^ (64 - n) + x / 2 ^ n

/-- A 32-bit word as 4 big-endian bytes. -/
def u32BytesBE (x : Nat) : List Nat :=
  [x / 2 ^ 24 % 256, x / 2 ^ 16 % 256, x / 2 ^ 8 % 256, x % 256]

/-- A 32-bit word as 4 little-endian bytes. -/
def u32BytesLE (x : Nat) : List Nat :=
  [x % 256, x / 2 ^ 8 % 256, x / 2 ^ 16 % 256, x / 2 ^ 24 % 256]

/-- A 64-bit word as 8 big-endian bytes. -/
def u64BytesBE (x : Nat) : List Nat :=
  [x / 2 ^ 56 % 256, x / 2 ^ 48 % 256, x / 2 ^ 40 % 256, x / 2 ^ 32 % 256,
   x / 2 ^ 24 % 256, x / 2 ^ 16 % 256, x / 2 ^ 8 % 256, x % 256]

/-- A 64-bit word as 8 little-endian bytes. -/
def u64BytesLE (x : Nat) : List Nat :=
  [x % 256, x / 2 ^ 8 % 256, x / 2 ^ 16 % 256, x / 2 ^ 24 % 256,
   x / 2 ^ 32 % 256, x / 2 ^ 40 % 256, x / 2 ^ 48 % 256, x / 2 ^ 56 % 256]

/-- A 128-bit quantity as 16 big-endian bytes. -/
def u128BytesBE (x : Nat) : List Nat := u64BytesBE (x / 2 ^ 64) ++ u64BytesBE x

/-- Merkle–Damgård padding with a 64-byte block: append `0x80`, zero
bytes up to 8 bytes short of a block boundary, then the bit length. -/
def pad64 (bytes lenField : List Nat) : List Nat :=
  bytes ++ 128 :: List.replicate ((64 - (bytes.length + 9) % 64) % 64) 0 ++ lenField

/-- Merkle–Damgård padding with a 128-byte block (SHA-512). -/
def pad128 (bytes lenField : List Nat) : List Nat :=
  bytes ++ 128 :: List.replicate ((128 - (bytes.length + 17) % 128) % 128) 0 ++ lenField

/-- Split a list into `sz`-element blocks, structurally recursive on a
fuel bound: with `fuel ≥ l.length` and `sz ≥ 1` it consumes the whole
list (each step removes at least one element). -/
def chunksFuel (sz : Nat) : Nat → List Nat → List (List Nat)
  | _, [] => []
  | 0, _ :: _ => []
  | fuel + 1, b :: rest => (b :: rest).take sz :: chunksFuel sz fuel ((b :: rest).drop sz)

/-- Split a byte list into 64-byte blocks. -/
def chunks64 (l : List Nat) : List (List Nat) := chunksFuel 64 l.length l

/-- Split a byte list into 128-byte blocks. -/
def chunks128 (l : List Nat) : List (List Nat) := chunksFuel 128 l.length l

/-- A block of bytes as big-endian 32-bit words. -/
def words32BE : List Nat → List Nat
  | b0 :: b1 :: b2 :: b3 :: rest =>
    (b0 * 2 ^ 24 + b1 * 2 ^ 16 + b2 * 2 ^ 8 + b3) :: words32BE rest
  | _ => []

/-- A block of bytes as little-endian 32-bit words (MD5). -/
def words32LE : List Nat → List Nat
  | b0 :: b1 :: b2 :: b3 :: rest =>
    (b0 + b1 * 2 ^ 8 + b2 * 2 ^ 16 + b3 * 2 ^ 24) :: words32LE rest
  | _ => []

/-- A block of bytes as big-endian 64-bit words (SHA-512). -/
def words64BE : List Nat → List Nat
  | b0 :: b1 :: b2 :: b3 :: b4 :: b5 :: b6 :: b7 :: rest =>
    (b0 * 2 ^ 56 + b1 * 2 ^ 48 + b2 * 2 ^ 40 + b3 * 2 ^ 32 +
     b4 * 2 ^ 24 + b5 * 2 ^ 16 + b6 * 2 ^ 8 + b7) :: words64BE rest
  | _ => []

/-- The lowercase hex alphabet used by `hex::encode` (the crate indexes
the byte string `b"0123456789abcdef"`). -/
def hexCharsLower : List Char := "0123456789abcdef".data

/-- `hex::encode`: each byte becomes two lowercase hex characters,
high nibble first. -/
def hexEncode : List Nat → List Char
  | [] => []
  | b :: rest =>
    hexCharsLower.getD (b / 16) '0' :: hexCharsLower.getD (b % 16) '0' :: hexEncode rest

/-- Chaining state of MD5 (4 words of 32 bits). -/
structure Hash4 where
  a : Nat
  b : Nat
  c : Nat
  d : Nat

/-- Chaining state of SHA-1 (5 words of 32 bits). -/
structure Hash5 where
  a : Nat
  b : Nat
  c : Nat
  d : Nat
  e : Nat

/-- Chaining state of SHA-256 (8 words of 32 bits) and of SHA-512
(8 words of 64 bits). -/
structure Hash8 where
  a : Nat
  b : Nat
  c : Nat
  d : Nat
  e : Nat
  f : Nat
  g : Nat
  h : Nat

/-! ### MD5 (RFC 1321) -/

/-- MD5 initial state. -/
def md5IV : Hash4 := ⟨1732584193, 4023233417, 2562383102, 271733878⟩

/-- MD5 sine table: `T[i] = floor(abs(sin(i+1)) * 2^32)`. -/
def md5T : List Nat :=
  [3614090360, 3905402710, 606105819, 3250441966, 4118548399, 1200080426,
   2821735955, 4249261313, 1770035416, 2336552879, 4294925233, 2304563134,
   1804603682, 4254626195, 2792965006, 1236535329, 4129170786, 3225465664,
   643717713, 3921069994, 3593408605, 38016083, 3634488961, 3889429448,
   568446438, 3275163606, 4107603335, 1163531501, 2850285829, 4243563512,
   1735328473, 2368359562, 4294588738, 2272392833, 1839030562, 4259657740,
   2763975236, 1272893353, 4139469664, 3200236656, 681279174, 3936430074,
   3572445317, 76029189, 3654602809, 3873151461, 530742520, 3299628645,
   4096336452, 1126891415, 2878612391, 4237533241, 1700485571, 2399980690,
   4293915773, 2240044497, 1873313359, 4264355552, 2734768916, 1309151649,
   4149444226, 3174756917, 718787259, 3951481745]

/-- MD5 per-round left-rotation amounts. -/
def md5S : List Nat :=
  [7, 12, 17, 22, 7, 12, 17, 22, 7, 12, 17, 22, 7, 12, 17, 22,
   5, 9, 14, 20, 5, 9, 14, 20, 5, 9, 14, 20, 5, 9, 14, 20,
   4, 11, 16, 23, 4, 11, 16, 23, 4, 11, 16, 23, 4, 11, 16, 23,
   6, 10, 15, 21, 6, 10, 15, 21, 6, 10, 15, 21, 6, 10, 15, 21]

/-- One MD5 round (round index `i`, message words `m`). -/
def md5Round (m : List Nat) (st : Hash4) (i : Nat) : Hash4 :=
  let f :=
    if i < 16 then (st.b &&& st.c) ||| (not32 st.b &&& st.d)
    else if i < 32 then (st.d &&& st.b) ||| (not32 st.d &&& st.c)
    else if i < 48 then st.b ^^^ st.c ^^^ st.d
    else st.c ^^^ (st.b ||| not32 st.d)
  let g :=
    if i < 16 then i
    else if i < 32 then (5 * i + 1) % 16
    else if i < 48 then (3 * i + 5) % 16
    else 7 * i % 16
  let r := rotl32 ((st.a + f + md5T.getD i 0 + m.getD g 0) % M32) (md5S.getD i 0)
  ⟨st.d, (st.b + r) % M32, st.b, st.c⟩

/-- MD5 compression of one 64-byte block. -/
def md5Compress (st : Hash4) (block : List Nat) : Hash4 :=
  let m := words32LE block
  let t := (List.range 64).foldl (md5Round m) st
  ⟨(st.a + t.a) % M32, (st.b + t.b) % M32, (st.c + t.c) % M32, (st.d + t.d) % M32⟩

/-- MD5 state serialized as 16 little-endian bytes. -/
def hash4BytesLE (s : Hash4) : List Nat :=
  u32BytesLE s.a ++ u32BytesLE s.b ++ u32BytesLE s.c ++ u32BytesLE s.d

/-- MD5 digest bytes (state serialized little-endian). -/
def md5Digest (data : List Nat) : List Nat :=
  let bytes := data.map (· % 256)
  let padded := pad64 bytes (u64BytesLE (8 * bytes.length))
  hash4BytesLE ((chunks64 padded).foldl md5Compress md5IV)

/-! ### SHA-1 (FIPS 180-4) -/

/-- SHA-1 initial state. -/
def sha1IV : Hash5 := ⟨1732584193, 4023233417, 2562383102, 271733878, 3285377520⟩

/-- SHA-1 round function `f_t`. -/
def sha1F (t x y z : Nat) : Nat :=
  if t < 20 then (x &&& y) ||| (not32 x &&& z)
  else if t < 40 then x ^^^ y ^^^ z
  else if t < 60 then (x &&& y) ||| (x &&& z) ||| (y &&& z)
  else x ^^^ y ^^^ z

/-- SHA-1 round constant `K_t`. -/
def sha1K (t : Nat) : Nat :=
  if t < 20 then 1518500249
  else if t < 40 then 1859775393
  else if t < 60 then 2400959708
  else 3395469782

/-- SHA-1 message-schedule extension: append
`rotl1 (W[n-3] xor W[n-8] xor W[n-14] xor W[n-16])` `k` times. -/
def sha1Extend (w : List Nat) : Nat → List Nat
  | 0 => w
  | k + 1 =>
    let w' := sha1Extend w k
    let n := w'.length
    w' ++ [rotl32 (w'.getD (n - 3) 0 ^^^ w'.getD (n - 8) 0 ^^^
                   w'.getD (n - 14) 0 ^^^ w'.getD (n - 16) 0) 1]

/-- One SHA-1 round. -/
def sha1Round (w : List Nat) (st : Hash5) (t : Nat) : Hash5 :=
  let temp := (rotl32 st.a 5 + sha1F t st.b st.c st.d + st.e + sha1K t +
               w.getD t 0) % M32
  ⟨temp, st.a, rotl32 st.b 30, st.c, st.d⟩

/-- SHA-1 compression of one 64-byte block. -/
def sha1Compress (st : Hash5) (block : List Nat) : Hash5 :=
  let w := sha1Extend (words32BE block) 64
  let t := (List.range 80).foldl (sha1Round w) st
  ⟨(st.a + t.a) % M32, (st.b + t.b) % M32, (st.c + t.c) % M32,
   (st.d + t.d) % M32, (st.e + t.e) % M32⟩

/-- SHA-1 state serialized as 20 big-endian bytes. -/
def hash5BytesBE (s : Hash5) : List Nat :=
  u32BytesBE s.a ++ u32BytesBE s.b ++ u32BytesBE s.c ++
  u32BytesBE s.d ++ u32BytesBE s.e

/-- SHA-1 digest bytes (state serialized big-endian). -/
def sha1Digest (data : List Nat) : List Nat :=
  let bytes := data.map (· % 256)
  let padded := pad64 bytes (u64BytesBE (8 * bytes.length))
  hash5BytesBE ((chunks64 padded).foldl sha1Compress sha1IV)

/-! ### SHA-256 (FIPS 180-4) -/

/-- SHA-256 initial state. -/
def sha256IV : Hash8 :=
  ⟨1779033703, 3144134277, 1013904242, 2773480762,
   1359893119, 2600822924, 528734635, 1541459225⟩

/-- SHA-256 round constants (fractional parts of the cube roots of the
first 64 primes). -/
def sha256K : List Nat :=
  [1116352408, 1899447441, 3049323471, 3921009573, 961987163, 1508970993,
   2453635748, 2870763221, 3624381080, 310598401, 607225278, 1426881987,
   1925078388, 2162078206, 2614888103, 3248222580, 3835390401, 4022224774,
   264347078, 604807628, 770255983, 1249150122, 1555081692, 1996064986,
   2554220882, 2821834349, 2952996808, 3210313671, 3336571891, 3584528711,
   113926993, 338241895, 666307205, 773529912, 1294757372, 1396182291,
   1695183700, 1986661051, 2177026350, 2456956037, 2730485921, 2820302411,
   3259730800, 3345764771, 3516065817, 3600352804, 4094571909, 275423344,
   430227734, 506948616, 659060556, 883997877, 958139571, 1322822218,
   1537002063, 1747873779, 1955562222, 2024104815, 2227730452, 2361852424,
   2428436474, 2756734187, 3204031479, 3329325298]

/-- SHA-256 `Ch(x, y, z)`. -/
def ch32 (x y z : Nat) : Nat := (x &&& y) ^^^ (not32 x &&& z)

/-- SHA-256 `Maj(x, y, z)`. -/
def maj32 (x y z : Nat) : Nat := (x &&& y) ^^^ ((x &&& z) ^^^ (y &&& z))

/-- SHA-256 `Σ0`. -/
def bSig0 (x : Nat) : Nat := rotr32 x 2 ^^^ rotr32 x 13 ^^^ rotr32 x 22

/-- SHA-256 `Σ1`. -/
def bSig1 (x : Nat) : Nat := rotr32 x 6 ^^^ rotr32 x 11 ^^^ rotr32 x 25

/-- SHA-256 `σ0`. -/
def sSig0 (x : Nat) : Nat := rotr32 x 7 ^^^ rotr32 x 18 ^^^ x / 2 ^ 3

/-- SHA-256 `σ1`. -/
def sSig1 (x : Nat) : Nat := rotr32 x 17 ^^^ rotr32 x 19 ^^^ x / 2 ^ 10

/-- SHA-256 message-schedule extension: append
`σ1(W[n-2]) + W[n-7] + σ0(W[n-15]) + W[n-16]` `k` times. -/
def sha256Extend (w : List Nat) : Nat → List Nat
  | 0 => w
  | k + 1 =>
    let w' := sha256Extend w k
    let n := w'.length
    w' ++ [(sSig1 (w'.getD (n - 2) 0) + w'.getD (n - 7) 0 +
            sSig0 (w'.getD (n - 15) 0) + w'.getD (n - 16) 0) % M32]

/-- One SHA-256 round with constant `k` and schedule word `w`. -/
def sha256Round (st : Hash8) (kw : Nat × Nat) : Hash8 :=
  let t1 := (st.h + bSig1 st.e + ch32 st.e st.f st.g + kw.1 + kw.2) % M32
  let t2 := (bSig0 st.a + maj32 st.a st.b st.c) % M32
  ⟨(t1 + t2) % M32, st.a, st.b, st.c, (st.d + t1) % M32, st.e, st.f, st.g⟩

/-- SHA-256 compression of one 64-byte block. -/
def sha256Compress (st : Hash8) (block : List Nat) : Hash8 :=
  let w := sha256Extend (words32BE block) 48
  let t := (sha256K.zip w).foldl sha256Round st
  ⟨(st.a + t.a) % M32, (st.b + t.b) % M32, (st.c + t.c) % M32,
   (st.d + t.d) % M32, (st.e + t.e) % M32, (st.f + t.f) % M32,
   (st.g + t.g) % M32, (st.h + t.h) % M32⟩

/-- SHA-256 state serialized as 32 big-endian bytes. -/
def hash8BytesBE32 (s : Hash8) : List Nat :=
  u32BytesBE s.a ++ u32BytesBE s.b ++ u32BytesBE s.c ++
  u32BytesBE s.d ++ u32BytesBE s.e ++ u32BytesBE s.f ++
  u32BytesBE s.g ++ u32BytesBE s.h

/-- SHA-256 digest bytes (state serialized big-endian). -/
def sha256Digest (data : List Nat) : List Nat :=
  let bytes := data.map (· % 256)
  let padded := pad64 bytes (u64BytesBE (8 * bytes.length))
  hash8BytesBE32 ((chunks64 padded).foldl sha256Compress sha256IV)

/-! ### SHA-512 (FIPS 180-4) -/

/-- SHA-512 initial state. -/
def sha512IV : Hash8 :=
  ⟨7640891576956012808, 13503953896175478587, 4354685564936845355,
   11912009170470909681, 5840696475078001361, 11170449401992604703,
   2270897969802886507, 6620516959819538809⟩

/-- SHA-512 round constants (fractional parts of the cube roots of the
first 80 primes, to 64 bits). -/
def sha512K : List Nat :=
  [4794697086780616226, 8158064640168781261, 13096744586834688815, 16840607885511220156,
   4131703408338449720, 6480981068601479193, 10538285296894168987, 12329834152419229976,
   15566598209576043074, 1334009975649890238, 2608012711638119052, 6128411473006802146,
   8268148722764581231, 9286055187155687089, 11230858885718282805, 13951009754708518548,
   16472876342353939154, 17275323862435702243, 1135362057144423861, 2597628984639134821,
   3308224258029322869, 5365058923640841347, 6679025012923562964, 8573033837759648693,
   10970295158949994411, 12119686244451234320, 12683024718118986047, 13788192230050041572,
   14330467153632333762, 15395433587784984357, 489312712824947311, 1452737877330783856,
   2861767655752347644, 3322285676063803686, 5560940570517711597, 5996557281743188959,
   7280758554555802590, 8532644243296465576, 9350256976987008742, 10552545826968843579,
   11727347734174303076, 12113106623233404929, 14000437183269869457, 14369950271660146224,
   15101387698204529176, 15463397548674623760, 17586052441742319658, 1182934255886127544,
   1847814050463011016, 2177327727835720531, 2830643537854262169, 3796741975233480872,
   4115178125766777443, 5681478168544905931, 6601373596472566643, 7507060721942968483,
   8399075790359081724, 8693463985226723168, 9568029438360202098, 10144078919501101548,
   10430055236837252648, 11840083180663258601, 13761210420658862357, 14299343276471374635,
   14566680578165727644, 15097957966210449927, 16922976911328602910, 17689382322260857208,
   500013540394364858, 748580250866718886, 1242879168328830382, 1977374033974150939,
   2944078676154940804, 3659926193048069267, 4368137639120453308, 4836135668995329356,
   5532061633213252278, 6448918945643986474, 6902733635092675308, 7801388544844847127]

/-- SHA-512 `Ch(x, y, z)`. -/
def ch64 (x y z : Nat) : Nat := (x &&& y) ^^^ (not64 x &&& z)

/-- SHA-512 `Maj(x, y, z)`. -/
def maj64 (x y z : Nat) : Nat := (x &&& y) ^^^ ((x &&& z) ^^^ (y &&& z))

/-- SHA-512 `Σ0`. -/
def bSig0w (x : Nat) : Nat := rotr64 x 28 ^^^ rotr64 x 34 ^^^ rotr64 x 39

/-- SHA-512 `Σ1`. -/
def bSig1w (x : Nat) : Nat := rotr64 x 14 ^^^ rotr64 x 18 ^^^ rotr64 x 41

/-- SHA-512 `σ0`. -/
def sSig0w (x : Nat) : Nat := rotr64 x 1 ^^^ rotr64 x 8 ^^^ x / 2 ^ 7

/-- SHA-512 `σ1`. -/
def sSig1w (x : Nat) : Nat := rotr64 x 19 ^^^ rotr64 x 61 ^^^ x / 2 ^ 6

/-- SHA-512 message-schedule extension. -/
def sha512Extend (w : List Nat) : Nat → List Nat
  | 0 => w
  | k + 1 =>
    let w' := sha512Extend w k
    let n := w'.length
    w' ++ [(sSig1w (w'.getD (n - 2) 0) + w'.getD (n - 7) 0 +
            sSig0w (w'.getD (n - 15) 0) + w'.getD (n - 16) 0) % M64]

/-- One SHA-512 round with constant `k` and schedule word `w`. -/
def sha512Round (st : Hash8) (kw : Nat × Nat) : Hash8 :=
  let t1 := (st.h + bSig1w st.e + ch64 st.e st.f st.g + kw.1 + kw.2) % M64
  let t2 := (bSig0w st.a + maj64 st.a st.b st.c) % M64
  ⟨(t1 + t2) % M64, st.a, st.b, st.c, (st.d + t1) % M64, st.e, st.f, st.g⟩

/-- SHA-512 compression of one 128-byte block. -/
def sha512Compress (st : Hash8) (block : List Nat) : Hash8 :=
  let w := sha512Extend (words64BE block) 64
  let t := (sha512K.zip w).foldl sha512Round st
  ⟨(st.a + t.a) % M64, (st.b + t.b) % M64, (st.c + t.c) % M64,
   (st.d + t.d) % M64, (st.e + t.e) % M64, (st.f + t.f) % M64,
   (st.g + t.g) % M64, (st.h + t.h) % M64⟩

/-- SHA-512 state serialized as 64 big-endian bytes. -/
def hash8BytesBE64 (s : Hash8) : List Nat :=
  u64BytesBE s.a ++ u64BytesBE s.b ++ u64BytesBE s.c ++
  u64BytesBE s.d ++ u64BytesBE s.e ++ u64BytesBE s.f ++
  u64BytesBE s.g ++ u64BytesBE s.h

/-- SHA-512 digest bytes (state serialized big-endian). -/
def sha512Digest (data : List Nat) : List Nat :=
  let bytes := data.map (· % 256)
  let padded := pad128 bytes (u128BytesBE (8 * bytes.length))
  hash8BytesBE64 ((chunks128 padded).foldl sha512Compress sha512IV)

/-! ### The four public hashing functions

Each feeds the whole input through the one-shot digest and hex-encodes
the result, exactly as `md5_data` / `sha1_data` / `sha256_data` /
`sha512_data` do via the digest crates and `hex::encode`. -/

/-- `md5_data`: MD5 digest of the input bytes, lowercase hex. -/
def md5_data (data : List Nat) : String := String.mk (hexEncode (md5Digest data))

/-- `sha1_data`: SHA-1 digest of the input bytes, lowercase hex. -/
def sha1_data (data : List Nat) : String := String.mk (hexEncode (sha1Digest data))

/-- `sha256_data`: SHA-256 digest of the input bytes, lowercase hex. -/
def sha256_data (data : List Nat) : String := String.mk (hexEncode (sha256Digest data))

/-- `sha512_data`: SHA-512 digest of the input bytes, lowercase hex. -/
def sha512_data (data : List Nat) : String := String.mk (hexEncode (sha512Digest data))

/-! ## NetworkClassifier: `is_public_ip`

```rust
pub fn is_public_ip(ip: IpAddr) -> bool {
    let ip_network: IpNetwork = ip.into();
    match ip_network {
        IpNetwork::V4(v4) => v4.is_global(),
        IpNetwork::V6(v6) => v6.is_global(),
    }
}
```

The `is_global` predicates live in the external `ip_network` crate,
whose source is not part of this repository; they are modelled from
the spec below. An IPv4 address is its four octets; an IPv6 address
its eight 16-bit groups. -/

/-- An IP address: four octets (v4) or eight 16-bit groups (v6). -/
inductive IpAddr where
  | v4 (a b c d : Nat)
  | v6 (g0 g1 g2 g3 g4 g5 g6 g7 : Nat)

/-- Modelled from the spec: the `ip_network` crate's
`Ipv4Network::is_global` is not in the repository; per the spec,
"loopback, link-local, private, multicast, documentation ranges are
all non-public". Loopback is 127.0.0.0/8; link-local 169.254.0.0/16;
private the RFC1918 ranges 10.0.0.0/8, 172.16.0.0/12, 192.168.0.0/16;
multicast 224.0.0.0/4; documentation 192.0.2.0/24, 198.51.100.0/24,
203.0.113.0/24. -/
def ipv4IsGlobal (a b c d : Nat) : Bool :=
  let loopback := a == 127
  let linkLocal := a == 169 && b == 254
  let priv := a == 10 || (a == 172 && decide (16 ≤ b) && decide (b ≤ 31)) ||
              (a == 192 && b == 168)
  let multicast := decide (224 ≤ a) && decide (a ≤ 239)
  let doc := (a == 192 && b == 0 && c == 2) || (a == 198 && b == 51 && c == 100) ||
             (a == 203 && b == 0 && c == 113)
  !(loopback || linkLocal || priv || multicast || doc)

/-- Modelled from the spec: the `ip_network` crate's
`Ipv6Network::is_global` is not in the repository; per the spec,
"loopback, link-local, private, multicast, documentation ranges are
all non-public". Loopback is `::1`; link-local `fe80::/10`; private
(unique-local) `fc00::/7`; multicast `ff00::/8`; documentation
`2001:db8::/32`. -/
def ipv6IsGlobal (g0 g1 g2 g3 g4 g5 g6 g7 : Nat) : Bool :=
  let loopback := g0 == 0 && g1 == 0 && g2 == 0 && g3 == 0 &&
                  g4 == 0 && g5 == 0 && g6 == 0 && g7 == 1
  let linkLocal := decide (65152 ≤ g0) && decide (g0 ≤ 65215)
  let uniqueLocal := decide (64512 ≤ g0) && decide (g0 ≤ 65023)
  let multicast := decide (65280 ≤ g0)
  let doc := g0 == 8193 && g1 == 3512
  !(loopback || linkLocal || uniqueLocal || multicast || doc)

/-- `is_public_ip`: dispatch on the address family and apply the
family's global-routability predicate. -/
def is_public_ip (ip : IpAddr) : Bool :=
  match ip with
  | IpAddr.v4 a b c d => ipv4IsGlobal a b c d
  | IpAddr.v6 g0 g1 g2 g3 g4 g5 g6 g7 => ipv6IsGlobal g0 g1 g2 g3 g4 g5 g6 g7

/-! ## Helper lemmas -/

/-- For a shift amount `n ≤ 62`, the wrapped `i64` shift `1 << n` is
exactly `2^n` (no masking, no sign overflow). -/
theorem shl1_i64_eq {n : Nat} (hn : n ≤ 62) : shl1_i64 n = 2 ^ n := by
  have hmod : n % 64 = n := Nat.mod_eq_of_lt (by omega)
  have hle : (2 : Int) ^ n ≤ 2 ^ 62 := pow_le_pow_right₀ (by norm_num) hn
  have hpos : (0 : Int) < 2 ^ n := by positivity
  unfold shl1_i64 asI64
  rw [hmod, Int.emod_eq_of_lt (by positivity) (by norm_num at hle ⊢; omega)]
  ring

/-- Invariant of the `page_shift` loop: for `page_size ≤ 2^62` and
enough fuel, the loop from shift `n ≤ 62` reaches some `r ≤ 62` with
`page_size ≤ 2^r` and `2^m < page_size` for all `m` seen before `r`. -/
theorem pageShiftLoop_sound (ps : Int) (hub : ps ≤ 2 ^ 62) :
    ∀ fuel n, n ≤ 62 → 63 - n ≤ fuel →
    ∃ r, pageShiftLoop fuel ps n = some r ∧ n ≤ r ∧ r ≤ 62 ∧ ps ≤ 2 ^ r ∧
      ∀ m, n ≤ m → m < r → (2 : Int) ^ m < ps := by
  intro fuel
  induction fuel with
  | zero => intro n hn hf; omega
  | succ fuel ih =>
    intro n hn hf
    simp only [pageShiftLoop]
    by_cases hc : shl1_i64 n < ps
    · rw [if_pos hc]
      have h2n : (2 : Int) ^ n < ps := by rw [← shl1_i64_eq hn]; exact hc
      have hn62 : n < 62 := by
        rcases Nat.lt_or_ge n 62 with h | h
        · exact h
        · exfalso
          have : n = 62 := by omega
          subst this
          exact absurd (lt_of_lt_of_le h2n hub) (lt_irrefl _)
      obtain ⟨r, hr, hnr, hr62, hub', hmin⟩ := ih (n + 1) (by omega) (by omega)
      refine ⟨r, hr, by omega, hr62, hub', fun m hm1 hm2 => ?_⟩
      rcases Nat.eq_or_lt_of_le hm1 with rfl | hlt
      · exact h2n
      · exact hmin m hlt hm2
    · rw [if_neg hc]
      refine ⟨n, rfl, le_refl n, hn, ?_, fun m hm1 hm2 => absurd hm1 (by omega)⟩
      have := not_lt.mp hc
      rwa [shl1_i64_eq hn] at this

/-- A nonnegative `isize` below `2^64` is unchanged by the `as usize`
cast. -/
theorem asUsize_eq_toNat {rc : Int} (h0 : 0 ≤ rc) (hlt : rc < 2 ^ 64) :
    asUsize rc = rc.toNat := by
  unfold asUsize asU64
  rw [Int.emod_eq_of_lt h0 hlt]

/-- Hex encoding yields two characters per byte. -/
theorem hexEncode_length (l : List Nat) : (hexEncode l).length = 2 * l.length := by
  induction l with
  | nil => rfl
  | cons x tl ih => simp only [hexEncode, List.length_cons, ih]; omega

/-- Every in-range lookup into the hex alphabet is in the alphabet. -/
theorem hexCharsLower_getD_mem {i : Nat} (hi : i < 16) :
    hexCharsLower.getD i '0' ∈ hexCharsLower := by
  interval_cases i <;> decide

/-- Hex encoding of bytes produces only lowercase hex characters. -/
theorem hexEncode_mem {bs : List Nat} (hb : ∀ b ∈ bs, b < 256) :
    ∀ c ∈ hexEncode bs, c ∈ hexCharsLower := by
  induction bs with
  | nil => simp [hexEncode]
  | cons b rest ih =>
    intro c hc
    have hblt : b < 256 := hb b (by simp)
    simp only [hexEncode, List.mem_cons] at hc
    rcases hc with rfl | rfl | hc
    · exact hexCharsLower_getD_mem (by omega)
    · exact hexCharsLower_getD_mem (by omega)
    · exact ih (fun x hx => hb x (by simp [hx])) c hc

/-- The bytes of a serialized 32-bit word (big-endian) are bytes. -/
theorem u32BytesBE_lt (x : Nat) : ∀ b ∈ u32BytesBE x, b < 256 := by
  simp [u32BytesBE]; omega

/-- The bytes of a serialized 32-bit word (little-endian) are bytes. -/
theorem u32BytesLE_lt (x : Nat) : ∀ b ∈ u32BytesLE x, b < 256 := by
  simp [u32BytesLE]; omega

/-- The bytes of a serialized 64-bit word (big-endian) are bytes. -/
theorem u64BytesBE_lt (x : Nat) : ∀ b ∈ u64BytesBE x, b < 256 := by
  simp [u64BytesBE]; omega

/-- An MD5 state serializes to 16 bytes. -/
theorem hash4BytesLE_length (s : Hash4) : (hash4BytesLE s).length = 16 := by
  simp [hash4BytesLE, u32BytesLE]

/-- A SHA-1 state serializes to 20 bytes. -/
theorem hash5BytesBE_length (s : Hash5) : (hash5BytesBE s).length = 20 := by
  simp [hash5BytesBE, u32BytesBE]

/-- A SHA-256 state serializes to 32 bytes. -/
theorem hash8BytesBE32_length (s : Hash8) : (hash8BytesBE32 s).length = 32 := by
  simp [hash8BytesBE32, u32BytesBE]

/-- A SHA-512 state serializes to 64 bytes. -/
theorem hash8BytesBE64_length (s : Hash8) : (hash8BytesBE64 s).length = 64 := by
  simp [hash8BytesBE64, u64BytesBE]

/-- Serialized MD5 states hold only bytes. -/
theorem hash4BytesLE_lt (s : Hash4) : ∀ b ∈ hash4BytesLE s, b < 256 := by
  intro b hb
  simp only [hash4BytesLE, List.mem_append] at hb
  rcases hb with ((h | h) | h) | h <;> exact u32BytesLE_lt _ b h

/-- Serialized SHA-1 states hold only bytes. -/
theorem hash5BytesBE_lt (s : Hash5) : ∀ b ∈ hash5BytesBE s, b < 256 := by
  intro b hb
  simp only [hash5BytesBE, List.mem_append] at hb
  rcases hb with (((h | h) | h) | h) | h <;> exact u32BytesBE_lt _ b h

/-- Serialized SHA-256 states hold only bytes. -/
theorem hash8BytesBE32_lt (s : Hash8) : ∀ b ∈ hash8BytesBE32 s, b < 256 := by
  intro b hb
  simp only [hash8BytesBE32, List.mem_append] at hb
  rcases hb with ((((((h | h) | h) | h) | h) | h) | h) | h <;> exact u32BytesBE_lt _ b h

/-- Serialized SHA-512 states hold only bytes. -/
theorem hash8BytesBE64_lt (s : Hash8) : ∀ b ∈ hash8BytesBE64 s, b < 256 := by
  intro b hb
  simp only [hash8BytesBE64, List.mem_append] at hb
  rcases hb with ((((((h | h) | h) | h) | h) | h) | h) | h <;> exact u64BytesBE_lt _ b h

/-- MD5 digests are 16 bytes long for every input. -/
theorem md5Digest_length (data : List Nat) : (md5Digest data).length = 16 := by
  simp [md5Digest, hash4BytesLE_length]

/-- SHA-1 digests are 20 bytes long for every input. -/
theorem sha1Digest_length (data : List Nat) : (sha1Digest data).length = 20 := by
  simp [sha1Digest, hash5BytesBE_length]

/-- SHA-256 digests are 32 bytes long for every input. -/
theorem sha256Digest_length (data : List Nat) : (sha256Digest data).length = 32 := by
  simp [sha256Digest, hash8BytesBE32_length]

/-- SHA-512 digests are 64 bytes long for every input. -/
theorem sha512Digest_length (data : List Nat) : (sha512Digest data).length = 64 := by
  simp [sha512Digest, hash8BytesBE64_length]

/-! ## Specified properties -/

/-- C1: for every positive page size (at most `2^62`, the largest power
of two an `i64` can hold, so covering every page size `page_size()`
can report), the linear-doubling loop of `page_shift` returns the
smallest `n` such that `2^n ≥ page_size`; in particular, whenever
`page_size` is a power of two, `2^page_shift() = page_size()`. -/
theorem page_shift_correct (ps : Int) (hpos : 0 < ps) (hub : ps ≤ 2 ^ 62) :
    ∃ r, page_shift (Except.ok ps) = Except.ok (some r) ∧ ps ≤ 2 ^ r ∧
      (∀ m : Nat, ps ≤ 2 ^ m → r ≤ m) ∧ ∀ k : Nat, ps = 2 ^ k → r = k := by
  obtain ⟨r, hr, -, -, hub', hmin⟩ := pageShiftLoop_sound ps hub 64 0 (by omega) (by omega)
  have hminle : ∀ m : Nat, ps ≤ 2 ^ m → r ≤ m := by
    intro m hm
    by_contra hlt
    push_neg at hlt
    exact absurd hm (not_le.mpr (hmin m (by omega) hlt))
  refine ⟨r, ?_, hub', hminle, ?_⟩
  · simp only [page_shift, hr]
  · intro k hk
    have hk_le : r ≤ k := hminle k (le_of_eq hk)
    have hr_le : k ≤ r := by
      have h2 : (2 : Int) ^ k ≤ 2 ^ r := hk ▸ hub'
      by_contra hgt
      push_neg at hgt
      have := pow_lt_pow_right₀ (a := (2 : Int)) (by norm_num) hgt
      omega
    omega

/-- C1, witnessed at the common page size 4096. -/
theorem page_shift_correct_witness :
    ∃ r, page_shift (Except.ok 4096) = Except.ok (some r) ∧ (4096 : Int) ≤ 2 ^ r ∧
      (∀ m : Nat, (4096 : Int) ≤ 2 ^ m → r ≤ m) ∧
      ∀ k : Nat, (4096 : Int) = 2 ^ k → r = k :=
  page_shift_correct 4096 (by norm_num) (by norm_num)

/-- C2: under the kernel contract for the `getrandom` syscall (it
returns `-1` on error, otherwise the count of bytes it initialized,
at most the requested length), `getrandom::<T>` returns a value only
if the call succeeded and the returned count equals `size_of::<T>()`,
in which case the value is fully initialized; it returns `CallFailure`
when the call returns `-1` and `PartiallyRandomized` when it returns
fewer bytes than requested; no partially-initialized value is ever
returned. -/
theorem getrandom_spec (buflen filled : Nat) (rc : Int) (rand : Nat → Nat)
    (hlen : buflen < 2 ^ 63)
    (hkernel : rc = -1 ∨ (0 ≤ rc ∧ rc.toNat ≤ buflen ∧ filled = rc.toNat)) :
    (∀ v, getrandom buflen rc (kernelBuf buflen filled rand) = Except.ok v →
      rc.toNat = buflen ∧ ∀ x ∈ v, x.isSome = true) ∧
    (rc = -1 →
      getrandom buflen rc (kernelBuf buflen filled rand) =
        Except.error RandError.CallFailure) ∧
    (0 ≤ rc → rc.toNat < buflen →
      getrandom buflen rc (kernelBuf buflen filled rand) =
        Except.error RandError.PartiallyRandomized) := by
  refine ⟨?_, ?_, ?_⟩
  · intro v hv
    rcases hkernel with rfl | ⟨h0, hle, hfill⟩
    · simp [getrandom] at hv
    · have hne : rc ≠ -1 := by omega
      have hus : asUsize rc = rc.toNat := asUsize_eq_toNat h0 (by omega)
      by_cases heq : rc.toNat = buflen
      · refine ⟨heq, ?_⟩
        unfold getrandom at hv
        rw [if_neg hne, hus, heq] at hv
        rw [if_neg (show ¬buflen ≠ buflen from fun h2 => h2 rfl)] at hv
        cases hv
        intro x hx
        simp only [kernelBuf, List.mem_map, List.mem_range] at hx
        obtain ⟨i, hi, rfl⟩ := hx
        rw [if_pos (by omega)]
        rfl
      · simp [getrandom, hne, hus, heq] at hv
  · intro hrc
    simp [getrandom, hrc]
  · intro h0 hlt
    have hne : rc ≠ -1 := by omega
    rcases hkernel with rfl | ⟨-, hle, -⟩
    · omega
    · have hus : asUsize rc = rc.toNat := asUsize_eq_toNat h0 (by omega)
      simp [getrandom, hne, hus]
      omega

/-- C2, witnessed with a 2-byte type and a fully successful call. -/
theorem getrandom_spec_witness :
    (∀ v, getrandom 2 2 (kernelBuf 2 2 fun _ => 0) = Except.ok v →
      (2 : Int).toNat = 2 ∧ ∀ x ∈ v, x.isSome = true) ∧
    ((2 : Int) = -1 →
      getrandom 2 2 (kernelBuf 2 2 fun _ => 0) = Except.error RandError.CallFailure) ∧
    (0 ≤ (2 : Int) → (2 : Int).toNat < 2 →
      getrandom 2 2 (kernelBuf 2 2 fun _ => 0) =
        Except.error RandError.PartiallyRandomized) :=
  getrandom_spec 2 2 2 (fun _ => 0) (by norm_num) (Or.inr (by decide))

/-- C3: for every byte input (any length, including empty), each of
`md5_data`, `sha1_data`, `sha256_data`, `sha512_data` returns a string
of exactly 32 / 40 / 64 / 128 characters respectively, all drawn from
the lowercase hex alphabet. Each is a plain function of the input
bytes, so determinism and purity hold by construction. -/
theorem hash_data_spec (data : List Nat) :
    (md5_data data).length = 32 ∧ (sha1_data data).length = 40 ∧
    (sha256_data data).length = 64 ∧ (sha512_data data).length = 128 ∧
    (∀ c ∈ (md5_data data).data, c ∈ hexCharsLower) ∧
    (∀ c ∈ (sha1_data data).data, c ∈ hexCharsLower) ∧
    (∀ c ∈ (sha256_data data).data, c ∈ hexCharsLower) ∧
    (∀ c ∈ (sha512_data data).data, c ∈ hexCharsLower) := by
  refine ⟨?_, ?_, ?_, ?_, ?_, ?_, ?_, ?_⟩
  · show (hexEncode (md5Digest data)).length = 32
    rw [hexEncode_length, md5Digest_length]
  · show (hexEncode (sha1Digest data)).length = 40
    rw [hexEncode_length, sha1Digest_length]
  · show (hexEncode (sha256Digest data)).length = 64
    rw [hexEncode_length, sha256Digest_length]
  · show (hexEncode (sha512Digest data)).length = 128
    rw [hexEncode_length, sha512Digest_length]
  · exact hexEncode_mem (hash4BytesLE_lt _)
  · exact hexEncode_mem (hash5BytesBE_lt _)
  · exact hexEncode_mem (hash8BytesBE32_lt _)
  · exact hexEncode_mem (hash8BytesBE64_lt _)

/-- C3, witnessed on the empty input. -/
theorem hash_data_spec_witness :
    (md5_data []).length = 32 ∧ (sha1_data []).length = 40 ∧
    (sha256_data []).length = 64 ∧ (sha512_data []).length = 128 :=
  ⟨(hash_data_spec []).1, (hash_data_spec []).2.1,
   (hash_data_spec []).2.2.1, (hash_data_spec []).2.2.2.1⟩

/-- C4 counterexample: the digest value printed in the spec for
`sha256("")` has only 63 characters (it drops the final `5`), so it is
not the value `sha256_data` returns on the empty input. -/
theorem sha256_data_empty_spec_value_refuted :
    sha256_data [] ≠
      "e3b0c44298fc1c149afbf4c8996fb92427ae41e4649b934ca495991b7852b85" ∧
    ("e3b0c44298fc1c149afbf4c8996fb92427ae41e4649b934ca495991b7852b85" : String).length
      = 63 := by
  constructor
  · decide
  · rfl

/-- C4 (amended): `sha256_data` applied to the empty input returns
`e3b0c44298fc1c149afbf4c8996fb92427ae41e4649b934ca495991b7852b855`,
whose length is SHA-256's fixed hex length of 64 characters. -/
theorem sha256_data_empty :
    sha256_data [] =
      "e3b0c44298fc1c149afbf4c8996fb92427ae41e4649b934ca495991b7852b855" ∧
    (sha256_data []).length = 64 := by
  constructor
  · rfl
  · rfl

/-- C5: `is_public_ip` is a total `Bool`-valued function; it returns
`false` on the loopback addresses 127.0.0.1 and `::1`, on every
link-local address (169.254.0.0/16 and `fe80::/10`), and on every
RFC1918 private address (10.0.0.0/8, 172.16.0.0/12, 192.168.0.0/16),
and returns `true` on the public address 8.8.8.8. -/
theorem is_public_ip_spec :
    is_public_ip (IpAddr.v4 127 0 0 1) = false ∧
    is_public_ip (IpAddr.v6 0 0 0 0 0 0 0 1) = false ∧
    (∀ c d, is_public_ip (IpAddr.v4 169 254 c d) = false) ∧
    (∀ g0 g1 g2 g3 g4 g5 g6 g7, 65152 ≤ g0 → g0 ≤ 65215 →
      is_public_ip (IpAddr.v6 g0 g1 g2 g3 g4 g5 g6 g7) = false) ∧
    (∀ b c d, is_public_ip (IpAddr.v4 10 b c d) = false) ∧
    (∀ b c d, 16 ≤ b → b ≤ 31 → is_public_ip (IpAddr.v4 172 b c d) = false) ∧
    (∀ c d, is_public_ip (IpAddr.v4 192 168 c d) = false) ∧
    is_public_ip (IpAddr.v4 8 8 8 8) = true := by
  refine ⟨by decide, by decide, ?_, ?_, ?_, ?_, ?_, by decide⟩
  · intro c d; simp [is_public_ip, ipv4IsGlobal]
  · intro g0 g1 g2 g3 g4 g5 g6 g7 h1 h2
    simp [is_public_ip, ipv6IsGlobal, h1, h2]
  · intro b c d; simp [is_public_ip, ipv4IsGlobal]
  · intro b c d h1 h2; simp [is_public_ip, ipv4IsGlobal, h1, h2]
  · intro c d; simp [is_public_ip, ipv4IsGlobal]

/-- C5, witnessed at 172.16.5.5 and the link-local `fe80::1`. -/
theorem is_public_ip_spec_witness :
    is_public_ip (IpAddr.v4 172 16 5 5) = false ∧
    is_public_ip (IpAddr.v6 65152 0 0 0 0 0 0 1) = false :=
  ⟨is_public_ip_spec.2.2.2.2.2.1 16 5 5 (by decide) (by decide),
   is_public_ip_spec.2.2.2.1 65152 0 0 0 0 0 0 1 (by decide) (by decide)⟩

/-- C6: the security-module probe splits the file content on commas
and tests membership: content `"lockdown,bpf,yama"` yields `true`,
content `"lockdown,yama"` yields `false`, and when the file cannot be
read the error is propagated. -/
theorem is_bpf_lsm_enabled_spec :
    is_bpf_lsm_enabled (Except.ok "lockdown,bpf,yama") = Except.ok true ∧
    is_bpf_lsm_enabled (Except.ok "lockdown,yama") = Except.ok false ∧
    ∀ e : Nat, is_bpf_lsm_enabled (Except.error e) = Except.error e :=
  ⟨rfl, rfl, fun _ => rfl⟩

/-- C6, witnessed with error code 3. -/
theorem is_bpf_lsm_enabled_spec_witness :
    is_bpf_lsm_enabled (Except.error 3) = Except.error 3 :=
  is_bpf_lsm_enabled_spec.2.2 3

/-- C7: the code evaluated at the failing input `tv_sec = -1`,
`tv_nsec = 0` (a clock success with an out-of-range seconds field).
The `as u64` casts wrap silently: the call reports success with the
wrapped value `2^64 - 10^9`, which is not the mathematical nanosecond
count `-10^9` — no range check rejects the negative seconds field. -/
theorem ktime_get_ns_wraps_negative_seconds :
    ktime_get_ns 0 (-1) 0 17 = Except.ok 18446744072709551616 ∧
    (18446744072709551616 : Int) ≠ (-1) * 1000000000 + 0 := by
  constructor
  · rfl
  · decide

/-- C8: given that the underlying POSIX `kill` returns only `0` or
`-1`, `kill` fails with the OS error exactly on a nonzero return and
returns silent success `()` on a zero return; the embedding is a total
function, so it never aborts on failure. -/
theorem kill_spec (rc : Int) (errno : Nat) (hposix : rc = 0 ∨ rc = -1) :
    (rc ≠ 0 → kill rc errno = Except.error errno) ∧
    (rc = 0 → kill rc errno = Except.ok ()) := by
  rcases hposix with rfl | rfl
  · exact ⟨fun hc => absurd rfl hc, fun _ => rfl⟩
  · exact ⟨fun _ => rfl, fun hc => absurd hc (by decide)⟩

/-- C8, witnessed at a failed call with `errno = 7`. -/
theorem kill_spec_witness :
    (((-1 : Int) ≠ 0 → kill (-1) 7 = Except.error 7) ∧
     ((-1 : Int) = 0 → kill (-1) 7 = Except.ok ())) :=
  kill_spec (-1) 7 (Or.inr rfl)

/-- C9: membership in the security-module list is exact string
equality on comma-separated tokens: a trailing newline
(`"lockdown,yama,bpf\n"`), surrounding whitespace
(`"lockdown, bpf,yama"`), or occurrence only as a substring of a
longer token (`"lockdown,bpfx,yama"`) does not match, while the exact
token (`"lockdown,yama,bpf"`) does. -/
theorem lsm_membership_exact :
    is_bpf_lsm_enabled (Except.ok "lockdown,yama,bpf\n") = Except.ok false ∧
    is_bpf_lsm_enabled (Except.ok "lockdown, bpf,yama") = Except.ok false ∧
    is_bpf_lsm_enabled (Except.ok "lockdown,bpfx,yama") = Except.ok false ∧
    is_bpf_lsm_enabled (Except.ok "lockdown,yama,bpf") = Except.ok true :=
  ⟨rfl, rfl, rfl, rfl⟩

/-- C10: the linear-doubling loop of `page_shift` terminates for every
page size not exceeding `2^62`: 63 iterations always suffice, and the
resulting shift is bounded by 62. -/
theorem pageShiftLoop_total (ps : Int) (hub : ps ≤ 2 ^ 62) :
    ∃ r, pageShiftLoop 63 ps 0 = some r ∧ r ≤ 62 := by
  obtain ⟨r, hr, -, hr62, -, -⟩ := pageShiftLoop_sound ps hub 63 0 (by omega) (by omega)
  exact ⟨r, hr, hr62⟩

/-- C10, witnessed at the page size 16384. -/
theorem pageShiftLoop_total_witness :
    ∃ r, pageShiftLoop 63 16384 0 = some r ∧ r ≤ 62 :=
  pageShiftLoop_total 16384 (by norm_num)

end Kunai
